import Mathlib

/-!
Shallow embedding of the client-side authentication flow controller of the
startemplates repository.  The repository holds two React components with the
same control logic over different presentation layers:

* `src/stuff/login-register-tailwind.tsx` (function `App`), called the
  tailwind variant below; it records its error message in component state
  (`error : String`).
* `src/stuff/login-register-rsuite.tsx` (function `LoginRegisterPage`),
  called the rsuite variant below; it reports messages as transient toast
  notifications pushed to a toaster.

Both variants run the same `checkAuth` probe on mount and a `handleSubmit`
operation; the rsuite variant additionally guards submissions on non-empty
fields.  Effectful statements (state setters, `fetch`, navigation, toast
pushes) are embedded as an `Action` trace listed in source execution order,
and each variant's component state is obtained by folding its setters over
the trace.
-/

namespace AuthFlow

/-- Active form mode, the `activeTab` state of both variants
(`useState('login')`, values `'login'` and `'register'`). -/
inductive Tab where
  | login
  | register
deriving DecidableEq, Repr

/-- JavaScript truthiness of an optional string-valued JSON field: the field
is truthy exactly when it is present and a non-empty string (`undefined` and
`""` are falsy). -/
def truthy : Option String → Bool
  | some s => !s.isEmpty
  | none => false

/-- The parsed JSON body of a whoami probe response, as read by `checkAuth`:
it may or may not carry a `username` string field. -/
structure WhoamiBody where
  username : Option String
deriving DecidableEq, Repr

/-- The parsed JSON body of a failed submission response, as read by
`handleSubmit`: optional `detail` and `message` string fields. -/
structure ErrBody where
  detail : Option String
  message : Option String
deriving DecidableEq, Repr

/-- Outcome of one `fetch` call as the code observes it: either the call
throws (network/transport failure), or a response arrives with an HTTP
status and a body that either parses as JSON (`some`) or fails to parse
(`none`, in which case `response.json()` throws). -/
inductive FetchOutcome (β : Type) where
  | networkFailure
  | response (status : Nat) (body : Option β)
deriving DecidableEq, Repr

/-- `Response.ok` of the WHATWG Fetch standard, used by both source files:
true exactly when the HTTP status is in the inclusive range 200..299. -/
def respOk (status : Nat) : Bool := decide (200 ≤ status ∧ status ≤ 299)

/-- An HTTP request issued by the code: the endpoint path and, for the POST
submissions, the JSON `\x7busername, password\x7d` payload. -/
structure Request where
  endpoint : String
  payload : Option (String × String)
deriving DecidableEq, Repr

/-- Kinds of toast notifications pushed by the rsuite variant
(`<Message showIcon type="...">`). -/
inductive ToastType where
  | warning
  | success
  | error
deriving DecidableEq, Repr

/-- One effect performed by the code, in source order: a state-setter call,
a `fetch`, a full-page navigation (`window.location.href = url`), or an
rsuite `toaster.push`. -/
inductive Action where
  | setError (msg : String)
  | setLoading (b : Bool)
  | setCheckingAuth (b : Bool)
  | fetch (r : Request)
  | navigate (url : String)
  | pushToast (t : ToastType) (msg : String)
deriving DecidableEq, Repr

/-- The whoami probe request: `fetch(API_BASE + "/auth/whoami")` with
`API_BASE = "/api/v1"`, a GET with no body. -/
def whoamiRequest : Request := { endpoint := "/api/v1/auth/whoami", payload := none }

/-- Trace of the `checkAuth` function, which is textually identical in both
source files (tailwind lines 18-36, rsuite lines 19-37): fetch the whoami
endpoint; if `response.ok` and the parsed body's `username` is truthy, set
`window.location.href = "/home"` and return; any thrown error (network
failure, or `response.json()` on an unparseable body) is swallowed by the
empty catch; the `finally` clause runs `setCheckingAuth(false)` on every
path, including after the early return on the redirect path. -/
def checkAuth (o : FetchOutcome WhoamiBody) : List Action :=
  Action.fetch whoamiRequest ::
    (match o with
      | .response status (some body) =>
          if respOk status && truthy body.username then [Action.navigate ("/home")] else []
      | _ => []) ++
    [Action.setCheckingAuth false]

/-- Component state of the tailwind variant (`App`, lines 7-12): the six
`useState` hooks. -/
structure TWState where
  activeTab : Tab
  username : String
  password : String
  loading : Bool
  error : String
  checkingAuth : Bool
deriving DecidableEq, Repr

/-- How one action updates the tailwind component state: the three setters
used by that file write their field; fetches, navigations and toasts do not
change component state. -/
def TWState.apply (s : TWState) : Action → TWState
  | .setError m => { s with error := m }
  | .setLoading b => { s with loading := b }
  | .setCheckingAuth b => { s with checkingAuth := b }
  | _ => s

/-- Fold an action trace over the tailwind component state. -/
def TWState.run (s : TWState) (tr : List Action) : TWState := tr.foldl TWState.apply s

/-- Initial tailwind state, from the `useState` initialisers:
tab `login`, empty fields, not loading, empty error, `checkingAuth = true`. -/
def TWState.init : TWState :=
  { activeTab := .login, username := "", password := "", loading := false,
    error := "", checkingAuth := true }

/-- The tailwind render function shows the login/registration form exactly
when `checkingAuth` is false (lines 69-75 return only the loader while
`checkingAuth` holds; line 77 onward renders the form). -/
def TWState.rendersForm (s : TWState) : Bool := !s.checkingAuth

/-- Component state of the rsuite variant (`LoginRegisterPage`, lines 8-13),
plus the list of toasts currently pushed to its toaster (each entry is the
message type and text; expiry timers are presentation and not modelled). -/
structure RSState where
  activeTab : Tab
  username : String
  password : String
  loading : Bool
  checkingAuth : Bool
  toasts : List (ToastType × String)
deriving DecidableEq, Repr

/-- How one action updates the rsuite component state: this file has no
error-string state, and `toaster.push` appends a toast. -/
def RSState.apply (s : RSState) : Action → RSState
  | .setLoading b => { s with loading := b }
  | .setCheckingAuth b => { s with checkingAuth := b }
  | .pushToast t m => { s with toasts := s.toasts ++ [(t, m)] }
  | _ => s

/-- Fold an action trace over the rsuite component state. -/
def RSState.run (s : RSState) (tr : List Action) : RSState := tr.foldl RSState.apply s

/-- Initial rsuite state, from the `useState` initialisers. -/
def RSState.init : RSState :=
  { activeTab := .login, username := "", password := "", loading := false,
    checkingAuth := true, toasts := [] }

/-- The rsuite render function shows the form exactly when `checkingAuth`
is false (lines 95-106 return only the loader while it holds). -/
def RSState.rendersForm (s : RSState) : Bool := !s.checkingAuth

/-- The requests a trace issues, in order. -/
def requests (tr : List Action) : List Request :=
  tr.filterMap fun a => match a with | .fetch r => some r | _ => none

/-- The full-page navigations a trace triggers, in order. -/
def navigations (tr : List Action) : List String :=
  tr.filterMap fun a => match a with | .navigate u => some u | _ => none

/-- A probe outcome that is a failure of some kind: the fetch throws, or the
response status is outside the 2xx range, or the body fails to parse as
JSON. -/
def probeFailure (o : FetchOutcome WhoamiBody) : Prop :=
  o = .networkFailure ∨
    (∃ status body, o = .response status body ∧ respOk status = false) ∨
    (∃ status, o = .response status none)

/-- C1 counterexample: at the concrete probe outcome of an HTTP 200 response
with body `\x7b"username": "alice"\x7d`, `checkAuth` does trigger the navigation
to `/home`, but the `finally` clause still ends the checking phase (the
early `return` does not skip it), so the component's render guard drops and
the form is rendered — refuting the part of the claim that says the form is
never rendered. -/
theorem checkAuth_200_alice_navigates_yet_renders_form :
    navigations (checkAuth (.response 200 (some { username := some ("alice") }))) = ["/home"] ∧
    (TWState.init.run (checkAuth (.response 200 (some { username := some ("alice") })))).rendersForm
      = true := by
  constructor <;> rfl

/-- C1 amended: for every probe response with 2xx status whose parsed body
carries a non-empty `username`, `checkAuth` triggers exactly one full-page
navigation, to `/home`; however the checking phase also ends (`finally` runs
`setCheckingAuth(false)` even on this path), so the component-level guard no
longer prevents the form from rendering — only the navigation away does. -/
theorem checkAuth_authed_navigates_home (status : Nat) (b : WhoamiBody)
    (hok : respOk status = true) (hu : truthy b.username = true) :
    navigations (checkAuth (.response status (some b))) = ["/home"] ∧
    (TWState.init.run (checkAuth (.response status (some b)))).checkingAuth = false ∧
    (RSState.init.run (checkAuth (.response status (some b)))).checkingAuth = false := by
  simp [checkAuth, navigations, hok, hu, TWState.run, TWState.apply, TWState.init,
    RSState.run, RSState.apply, RSState.init, List.foldl]

/-- Witness for `checkAuth_authed_navigates_home` at status 204 and username
`"bob"`. -/
theorem checkAuth_authed_navigates_home_witness :
    navigations (checkAuth (.response 204 (some { username := some ("bob") }))) = ["/home"] ∧
    (TWState.init.run (checkAuth (.response 204 (some { username := some ("bob") })))).checkingAuth
      = false ∧
    (RSState.init.run (checkAuth (.response 204 (some { username := some ("bob") })))).checkingAuth
      = false :=
  checkAuth_authed_navigates_home 204 { username := some ("bob") } (by decide) (by decide)

/-- C2: every failing probe outcome — network failure, non-2xx status, or a
body that fails to parse as JSON — is swallowed: no navigation is triggered,
no error message or toast is produced, the checking phase ends, and both
variants render the form. -/
theorem checkAuth_failure_renders_form (o : FetchOutcome WhoamiBody) (hfail : probeFailure o) :
    navigations (checkAuth o) = [] ∧
    (TWState.init.run (checkAuth o)).rendersForm = true ∧
    (TWState.init.run (checkAuth o)).error = "" ∧
    (RSState.init.run (checkAuth o)).rendersForm = true ∧
    (RSState.init.run (checkAuth o)).toasts = [] := by
  rcases hfail with h | ⟨status, body, h, hok⟩ | ⟨status, h⟩
  · subst h
    refine ⟨rfl, rfl, rfl, rfl, rfl⟩
  · subst h
    cases body with
    | none =>
        refine ⟨rfl, ?_, ?_, ?_, ?_⟩ <;>
          simp [checkAuth, TWState.run, TWState.apply, TWState.init, TWState.rendersForm,
            RSState.run, RSState.apply, RSState.init, RSState.rendersForm, List.foldl]
    | some b =>
        simp [checkAuth, navigations, hok, TWState.run, TWState.apply, TWState.init,
          TWState.rendersForm, RSState.run, RSState.apply, RSState.init, RSState.rendersForm,
          List.foldl]
  · subst h
    refine ⟨?_, ?_, ?_, ?_, ?_⟩ <;>
      simp [checkAuth, navigations, TWState.run, TWState.apply, TWState.init,
        TWState.rendersForm, RSState.run, RSState.apply, RSState.init, RSState.rendersForm,
        List.foldl]

/-- Witness for `checkAuth_failure_renders_form` at a thrown probe fetch. -/
theorem checkAuth_failure_renders_form_witness :
    navigations (checkAuth .networkFailure) = [] ∧
    (TWState.init.run (checkAuth .networkFailure)).rendersForm = true ∧
    (TWState.init.run (checkAuth .networkFailure)).error = "" ∧
    (RSState.init.run (checkAuth .networkFailure)).rendersForm = true ∧
    (RSState.init.run (checkAuth .networkFailure)).toasts = [] :=
  checkAuth_failure_renders_form .networkFailure (Or.inl rfl)

/-- JavaScript `a || b` where `a` is an optional string-valued field and `b`
a string: yields `a`'s value when it is truthy, else `b`. -/
def jsOr (a : Option String) (b : String) : String :=
  match a with
  | some v => if v.isEmpty then b else v
  | none => b

/-- The mode-dependent generic fallback of the failure branch:
`activeTab === 'login' ? 'Login' : 'Registration'` + `" failed"`. -/
def fallbackFor : Tab → String
  | .login => "Login failed"
  | .register => "Registration failed"

/-- `await response.json().catch(() => (\x7b\x7d))`: a body that fails to parse as
JSON is replaced by the empty object, whose fields are all absent. -/
def parsedOrEmpty : Option ErrBody → ErrBody
  | some b => b
  | none => { detail := none, message := none }

/-- The failure message computed in the failure branch of both variants:
`data.detail || data.message || (mode-dependent fallback)` over the parsed
(or substituted-empty) body. -/
def failMessage (body : Option ErrBody) (t : Tab) : String :=
  let data := parsedOrEmpty body
  jsOr data.detail (jsOr data.message (fallbackFor t))

/-- The success predicate of both `handleSubmit`s:
`response.ok || response.status === 201`. -/
def submitSuccess (status : Nat) : Bool := respOk status || status == 201

/-- The spec's wording of the success condition: HTTP status in the 2xx
range. -/
def is2xx (status : Nat) : Bool := decide (200 ≤ status ∧ status ≤ 299)

/-- The submission endpoint selected by the active tab:
`API_BASE + (activeTab === 'login' ? '/auth/login' : '/auth/register')`. -/
def submitEndpoint : Tab → String
  | .login => "/api/v1/auth/login"
  | .register => "/api/v1/auth/register"

/-- The success toast of the rsuite variant (line 66). -/
def successMessage : Tab → String
  | .login => "Login successful!"
  | .register => "Registration successful!"

/-- Trace of the tailwind `handleSubmit` (lines 38-67) at a given pre-state
and network outcome: clear the error, set loading, POST the credentials to
the selected endpoint; on `response.ok || status === 201` navigate to
`/home`; otherwise display the derived failure message; if the fetch throws,
display the generic network-error message; `finally` clears loading. -/
def handleSubmitTW (s : TWState) (o : FetchOutcome ErrBody) : List Action :=
  [Action.setError (""), Action.setLoading true,
   Action.fetch { endpoint := submitEndpoint s.activeTab,
                  payload := some (s.username, s.password) }] ++
  (match o with
    | .networkFailure => [Action.setError ("Network error. Please try again.")]
    | .response status body =>
        if submitSuccess status then [Action.navigate ("/home")]
        else [Action.setError (failMessage body s.activeTab)]) ++
  [Action.setLoading false]

/-- Trace of the rsuite `handleSubmit` (lines 39-93): if the username or the
password is empty, push a warning toast and return without setting loading
or fetching; otherwise set loading and POST the credentials; on success push
a success toast and schedule `window.location.href = '/home'` after 500ms
(the delayed navigation fires after the `finally` clears loading, hence it
is last in the trace); on failure push an error toast with the derived
message; on a thrown fetch push the generic network-error toast. -/
def handleSubmitRS (s : RSState) (o : FetchOutcome ErrBody) : List Action :=
  if s.username.isEmpty || s.password.isEmpty then
    [Action.pushToast .warning ("Please fill in all fields")]
  else
    [Action.setLoading true,
     Action.fetch { endpoint := submitEndpoint s.activeTab,
                    payload := some (s.username, s.password) }] ++
    (match o with
      | .networkFailure => [Action.pushToast .error ("Network error. Please try again.")]
      | .response status body =>
          if submitSuccess status then
            [Action.pushToast .success (successMessage s.activeTab)]
          else
            [Action.pushToast .error (failMessage body s.activeTab)]) ++
    [Action.setLoading false] ++
    (match o with
      | .response status _ =>
          if submitSuccess status then [Action.navigate ("/home")] else []
      | .networkFailure => [])

theorem lem_empty_isEmpty : String.isEmpty ("") = true := rfl

theorem lem_submitSuccess_eq_is2xx (status : Nat) : submitSuccess status = is2xx status := by
  by_cases h : status = 201
  · subst h; decide
  · simp [submitSuccess, is2xx, respOk, h]

theorem lem_submitSuccess_false (status : Nat) (h : is2xx status = false) :
    submitSuccess status = false := by
  rw [lem_submitSuccess_eq_is2xx, h]

theorem lem_tw_fail_error (s : TWState) (status : Nat) (body : Option ErrBody)
    (h : is2xx status = false) :
    (TWState.run s (handleSubmitTW s (.response status body))).error
      = failMessage body s.activeTab := by
  simp [handleSubmitTW, lem_submitSuccess_false status h, TWState.run, TWState.apply, List.foldl]

/-- C3: the success predicate used by both `handleSubmit`s,
`response.ok || response.status === 201`, classifies every HTTP status
exactly as the spec's "status in the 2xx range" predicate does — the `201`
disjunct is redundant because 201 already lies in 200..299. -/
theorem submitSuccess_iff_2xx (status : Nat) : submitSuccess status = is2xx status :=
  lem_submitSuccess_eq_is2xx status

/-- C4: on every non-2xx submission response, the tailwind variant's
displayed error equals the `detail`-else-`message`-else-fallback cascade
over the parsed body, and the rsuite variant (with non-empty fields, so a
request was made) pushes an error toast with the same message; a body that
fails to parse yields the mode-matching fallback, and the spec's example
body `\x7b"detail": "bad credentials"\x7d` yields exactly that detail. -/
theorem submit_failure_message (s : TWState) (r : RSState) (status : Nat)
    (body : Option ErrBody) (h2 : is2xx status = false)
    (hu : r.username.isEmpty = false) (hp : r.password.isEmpty = false) :
    (TWState.run s (handleSubmitTW s (.response status body))).error
      = failMessage body s.activeTab ∧
    Action.pushToast .error (failMessage body r.activeTab)
      ∈ handleSubmitRS r (.response status body) ∧
    failMessage none s.activeTab = fallbackFor s.activeTab ∧
    failMessage (some { detail := some ("bad credentials"), message := none }) Tab.login
      = "bad credentials" := by
  refine ⟨lem_tw_fail_error s status body h2, ?_, rfl, by decide⟩
  simp [handleSubmitRS, hu, hp, lem_submitSuccess_false status h2]

/-- Witness for `submit_failure_message` at a 400 response with body
`\x7b"detail": "bad credentials"\x7d`. -/
theorem submit_failure_message_witness :
    (TWState.run TWState.init (handleSubmitTW TWState.init
        (.response 400 (some { detail := some ("bad credentials"), message := none })))).error
      = failMessage (some { detail := some ("bad credentials"), message := none })
          TWState.init.activeTab ∧
    Action.pushToast .error (failMessage
        (some { detail := some ("bad credentials"), message := none })
        { RSState.init with username := "u", password := "p" }.activeTab)
      ∈ handleSubmitRS { RSState.init with username := "u", password := "p" }
          (.response 400 (some { detail := some ("bad credentials"), message := none })) ∧
    failMessage none TWState.init.activeTab = fallbackFor TWState.init.activeTab ∧
    failMessage (some { detail := some ("bad credentials"), message := none }) Tab.login
      = "bad credentials" :=
  submit_failure_message TWState.init { RSState.init with username := "u", password := "p" }
    400 (some { detail := some ("bad credentials"), message := none })
    (by decide) (by decide) (by decide)

/-- C5: when the submission fetch throws (no response at all), the tailwind
variant displays exactly "Network error. Please try again." and ends with
loading false; the rsuite variant (with non-empty fields) pushes an error
toast with exactly that text and ends with loading false. -/
theorem submit_network_error (s : TWState) (r : RSState)
    (hu : r.username.isEmpty = false) (hp : r.password.isEmpty = false) :
    (TWState.run s (handleSubmitTW s .networkFailure)).error
      = "Network error. Please try again." ∧
    (TWState.run s (handleSubmitTW s .networkFailure)).loading = false ∧
    Action.pushToast .error ("Network error. Please try again.")
      ∈ handleSubmitRS r .networkFailure ∧
    (RSState.run r (handleSubmitRS r .networkFailure)).loading = false := by
  refine ⟨?_, ?_, ?_, ?_⟩ <;>
    simp [handleSubmitTW, handleSubmitRS, hu, hp, TWState.run, TWState.apply,
      RSState.run, RSState.apply, List.foldl]

/-- Witness for `submit_network_error` at concrete states. -/
theorem submit_network_error_witness :
    (TWState.run TWState.init (handleSubmitTW TWState.init .networkFailure)).error
      = "Network error. Please try again." ∧
    (TWState.run TWState.init (handleSubmitTW TWState.init .networkFailure)).loading = false ∧
    Action.pushToast .error ("Network error. Please try again.")
      ∈ handleSubmitRS { RSState.init with username := "u", password := "p" } .networkFailure ∧
    (RSState.run { RSState.init with username := "u", password := "p" }
        (handleSubmitRS { RSState.init with username := "u", password := "p" }
          .networkFailure)).loading = false :=
  submit_network_error TWState.init { RSState.init with username := "u", password := "p" }
    (by decide) (by decide)

/-- The tailwind variant's tab-button click handler (lines 87-112): each of
the two tab buttons runs `setActiveTab(tab); setError('')`. -/
def clickTab (s : TWState) (t : Tab) : TWState :=
  { s with activeTab := t, error := "" }

/-- The rsuite variant's tab selection (lines 123-131): the `Nav` component's
`onSelect` handler is `setActiveTab` alone — it changes the active tab and
nothing else; in particular no toast is removed. -/
def selectTab (s : RSState) (t : Tab) : RSState :=
  { s with activeTab := t }

/-- A user-triggered submit in the tailwind variant: the submit button and
both inputs (whose Enter handlers call `handleSubmit`) all carry
`disabled=\x7bloading\x7d` (lines 138, 157, 165), and a disabled DOM control
fires no click/key handler, so while loading the trigger produces no
actions at all. -/
def submitClickTW (s : TWState) (o : FetchOutcome ErrBody) : List Action :=
  if s.loading then [] else handleSubmitTW s o

/-- A user-triggered submit in the rsuite variant: both inputs carry
`disabled=\x7bloading\x7d` (lines 143, 158) and the submit button carries
`loading=\x7bloading\x7d` (line 168), which renders it non-interactive
(rsuite's loading buttons receive no pointer events), so while loading the
trigger produces no actions at all. -/
def submitClickRS (s : RSState) (o : FetchOutcome ErrBody) : List Action :=
  if s.loading then [] else handleSubmitRS s o

/-- C6 counterexample: in the rsuite variant, switching the mode while an
error toast reading "Login failed" is displayed leaves that toast exactly in
place — refuting the part of the claim that says every mode switch in both
variants clears any currently displayed error message. -/
theorem selectTab_keeps_displayed_error_toast :
    (selectTab { RSState.init with toasts := [(ToastType.error, "Login failed")] }
        Tab.register).toasts = [(ToastType.error, "Login failed")] := rfl

/-- C6 amended: in the tailwind variant every mode switch sets the displayed
error message to the empty string and switching to the same mode twice
equals switching once; in the rsuite variant a mode switch only changes the
active tab — it is likewise idempotent but leaves the displayed toasts
untouched (they expire on their own timers). -/
theorem tab_switch_behaviour (s : TWState) (r : RSState) (t : Tab) :
    (clickTab s t).error = "" ∧
    clickTab (clickTab s t) t = clickTab s t ∧
    (selectTab r t).activeTab = t ∧
    selectTab (selectTab r t) t = selectTab r t ∧
    (selectTab r t).toasts = r.toasts :=
  ⟨rfl, rfl, rfl, rfl, rfl⟩

/-- C7: while a submission is in flight (`loading = true`), a user-triggered
submit issues no network request in either variant, because every control
that can invoke `handleSubmit` is disabled during flight; hence at most one
submission request is outstanding at any time. -/
theorem no_request_while_loading (s : TWState) (r : RSState)
    (o o2 : FetchOutcome ErrBody) (hs : s.loading = true) (hr : r.loading = true) :
    requests (submitClickTW s o) = [] ∧ requests (submitClickRS r o2) = [] := by
  simp [submitClickTW, submitClickRS, hs, hr, requests]

/-- Witness for `no_request_while_loading` at in-flight states. -/
theorem no_request_while_loading_witness :
    requests (submitClickTW { TWState.init with loading := true } .networkFailure) = [] ∧
    requests (submitClickRS { RSState.init with loading := true } .networkFailure) = [] :=
  no_request_while_loading { TWState.init with loading := true }
    { RSState.init with loading := true } .networkFailure .networkFailure rfl rfl

/-- C8: in the rsuite variant, a submission attempt with an empty username
or an empty password issues no request, pushes the validation warning toast,
and never sets loading (the status never enters in-flight); the tailwind
variant has no such guard and always issues exactly one request, whatever
the fields hold. -/
theorem empty_fields_guard (r : RSState) (s : TWState) (o o2 : FetchOutcome ErrBody)
    (h : (r.username.isEmpty || r.password.isEmpty) = true) :
    requests (handleSubmitRS r o) = [] ∧
    Action.pushToast .warning ("Please fill in all fields") ∈ handleSubmitRS r o ∧
    Action.setLoading true ∉ handleSubmitRS r o ∧
    (RSState.run r (handleSubmitRS r o)).loading = r.loading ∧
    (requests (handleSubmitTW s o2)).length = 1 := by
  refine ⟨?_, ?_, ?_, ?_, ?_⟩
  · simp [handleSubmitRS, h, requests]
  · simp [handleSubmitRS, h]
  · simp [handleSubmitRS, h]
  · simp [handleSubmitRS, h, RSState.run, RSState.apply, List.foldl]
  · cases o2 with
    | networkFailure => simp [handleSubmitTW, requests]
    | response status body =>
        cases hc : submitSuccess status <;> simp [handleSubmitTW, requests, hc]

/-- Witness for `empty_fields_guard` at an empty-username rsuite state. -/
theorem empty_fields_guard_witness :
    requests (handleSubmitRS { RSState.init with password := "p" } .networkFailure) = [] ∧
    Action.pushToast .warning ("Please fill in all fields")
      ∈ handleSubmitRS { RSState.init with password := "p" } .networkFailure ∧
    Action.setLoading true ∉ handleSubmitRS { RSState.init with password := "p" }
      .networkFailure ∧
    (RSState.run { RSState.init with password := "p" }
        (handleSubmitRS { RSState.init with password := "p" } .networkFailure)).loading
      = { RSState.init with password := "p" }.loading ∧
    (requests (handleSubmitTW TWState.init .networkFailure)).length = 1 :=
  empty_fields_guard { RSState.init with password := "p" } TWState.init
    .networkFailure .networkFailure (by decide)

/-- C9: every submission attempt that issues a request ends with loading
false, whatever the network outcome — success (which also navigates),
failure, or a thrown fetch; the tailwind variant always issues the request,
and the rsuite variant does whenever both fields are non-empty. -/
theorem submit_clears_loading (s : TWState) (r : RSState) (o o2 : FetchOutcome ErrBody)
    (hu : r.username.isEmpty = false) (hp : r.password.isEmpty = false) :
    (TWState.run s (handleSubmitTW s o)).loading = false ∧
    (RSState.run r (handleSubmitRS r o2)).loading = false := by
  constructor
  · cases o with
    | networkFailure => simp [handleSubmitTW, TWState.run, TWState.apply, List.foldl]
    | response status body =>
        cases hc : submitSuccess status <;>
          simp [handleSubmitTW, hc, TWState.run, TWState.apply, List.foldl]
  · cases o2 with
    | networkFailure =>
        simp [handleSubmitRS, hu, hp, RSState.run, RSState.apply, List.foldl]
    | response status body =>
        cases hc : submitSuccess status <;>
          simp [handleSubmitRS, hu, hp, hc, RSState.run, RSState.apply, List.foldl]

/-- Witness for `submit_clears_loading` at a 200 response (the redirecting
success path) for both variants. -/
theorem submit_clears_loading_witness :
    (TWState.run TWState.init (handleSubmitTW TWState.init
        (.response 200 (some { detail := none, message := none })))).loading = false ∧
    (RSState.run { RSState.init with username := "u", password := "p" }
        (handleSubmitRS { RSState.init with username := "u", password := "p" }
          (.response 200 (some { detail := none, message := none })))).loading = false :=
  submit_clears_loading TWState.init { RSState.init with username := "u", password := "p" }
    (.response 200 (some { detail := none, message := none }))
    (.response 200 (some { detail := none, message := none }))
    (by decide) (by decide)

/-- C10: the failure-message cascade selects by JavaScript truthiness, not
by field presence: on a non-2xx response, a `detail` field holding the empty
string is displayed exactly as an absent `detail` (falling through to
`message`), and an empty-string `message` likewise falls through to the
mode-matching fallback; concretely, `detail = ""` with `message = "hint"`
displays "hint", and both fields empty display "Login failed" in login
mode. -/
theorem failure_message_truthiness (s : TWState) (status : Nat) (m d : Option String)
    (h2 : is2xx status = false) :
    (TWState.run s (handleSubmitTW s
        (.response status (some { detail := some (""), message := m })))).error
      = (TWState.run s (handleSubmitTW s
          (.response status (some { detail := none, message := m })))).error ∧
    (TWState.run s (handleSubmitTW s
        (.response status (some { detail := d, message := some ("") })))).error
      = (TWState.run s (handleSubmitTW s
          (.response status (some { detail := d, message := none })))).error ∧
    failMessage (some { detail := some (""), message := some ("hint") }) Tab.login = "hint" ∧
    failMessage (some { detail := some (""), message := some ("") }) Tab.login
      = "Login failed" := by
  refine ⟨?_, ?_, by decide, by decide⟩
  · rw [lem_tw_fail_error s status _ h2, lem_tw_fail_error s status _ h2]
    simp [failMessage, parsedOrEmpty, jsOr, lem_empty_isEmpty]
  · rw [lem_tw_fail_error s status _ h2, lem_tw_fail_error s status _ h2]
    cases d with
    | none => simp [failMessage, parsedOrEmpty, jsOr, lem_empty_isEmpty]
    | some v =>
        cases hv : v.isEmpty <;> simp [failMessage, parsedOrEmpty, jsOr, lem_empty_isEmpty, hv]

/-- Witness for `failure_message_truthiness` at a 422 response. -/
theorem failure_message_truthiness_witness :
    (TWState.run TWState.init (handleSubmitTW TWState.init
        (.response 422 (some { detail := some (""), message := some ("hint") })))).error
      = (TWState.run TWState.init (handleSubmitTW TWState.init
          (.response 422 (some { detail := none, message := some ("hint") })))).error ∧
    (TWState.run TWState.init (handleSubmitTW TWState.init
        (.response 422 (some { detail := none, message := some ("") })))).error
      = (TWState.run TWState.init (handleSubmitTW TWState.init
          (.response 422 (some { detail := none, message := none })))).error ∧
    failMessage (some { detail := some (""), message := some ("hint") }) Tab.login = "hint" ∧
    failMessage (some { detail := some (""), message := some ("") }) Tab.login
      = "Login failed" :=
  failure_message_truthiness TWState.init 422 (some ("hint")) none (by decide)

end AuthFlow
